import Mathlib

/-!
Shallow embedding of `src/artists.py` (justinsingh/artist-web-scraper).

The scraper's core logic lives in `write_data`, `check_if_artist` and
`main`.  We embed the pure name-key derivation, category classification
and summary-resolution logic directly from the source, modelling the
external Wikipedia lookup as a parameter `lookup : String → LookupResult`
(success yields a page with title, categories and summary; failure covers
not-found, ambiguous and transport errors, all caught by the source's
`except wikipedia.WikipediaException`).
-/

/-- Python `string.punctuation`: the 32 ASCII punctuation characters.
Braces and apostrophe written as hex escapes. -/
def punctuation : String := "!\"#$%&\x27()*+,-./:;<=>?@[\\]^_`\x7b|\x7d~"

/-- Membership in `string.punctuation`, as used by `str.strip`. -/
def isPunct (c : Char) : Bool := punctuation.toList.contains c

/-- The whitespace characters recognised by Python `str.split()` (ASCII
fragment: space, tab, newline, carriage return, vertical tab, form feed). -/
def isSpaceChar (c : Char) : Bool :=
  c = ' ' || c = '\t' || c = '\n' || c = '\r' || c = '\x0b' || c = '\x0c'

/-- Worker for `splitWhitespace`: scan the characters, accumulating the
current token (reversed); whitespace ends a token, runs of whitespace
produce no empty tokens. -/
def splitWhitespaceAux : List Char → List Char → List String
  | [], acc => if acc.isEmpty then [] else [String.mk acc.reverse]
  | c :: cs, acc =>
      if isSpaceChar c then
        if acc.isEmpty then splitWhitespaceAux cs []
        else String.mk acc.reverse :: splitWhitespaceAux cs []
      else splitWhitespaceAux cs (c :: acc)

/-- Python `str.split()` with no argument: split on runs of whitespace,
dropping empty pieces.  Used at artists.py line 66 and line 105. -/
def splitWhitespace (s : String) : List String :=
  splitWhitespaceAux s.toList []

/-- Python `str.lower()` (ASCII model), applied characterwise. -/
def pyLower (s : String) : String :=
  String.mk (s.toList.map Char.toLower)

/-- Python `str.strip(string.punctuation)`: remove leading and trailing
punctuation characters (artists.py lines 71 and 73). -/
def stripPunct (s : String) : String :=
  String.mk (((s.toList.dropWhile isPunct).reverse.dropWhile isPunct).reverse)

/-- The name-key derivation inlined in `write_data` (artists.py lines
66-73): split the display name on whitespace; `tokens[1]` is evaluated
first, so with two or more tokens the key is
`tokens[1] ++ " " ++ tokens[0].strip(punctuation)`; with exactly one token
the `IndexError` is caught and the key is the stripped single token; with
zero tokens the `tokens[0]` inside the handler raises `IndexError`, which
is uncaught and propagates. -/
def derive (display_name : String) : Except String String :=
  match splitWhitespace display_name with
  | t0 :: t1 :: _ => Except.ok (t1 ++ " " ++ stripPunct t0)
  | [t0] => Except.ok (stripPunct t0)
  | [] => Except.error "IndexError"

/-- Keyword set of `check_if_artist` (artists.py line 100). -/
def keywords : List String := ["art", "artist", "sculptor", "painter"]

/-- `check_if_artist` (artists.py lines 88-110), taking the page's
category strings: true iff some whitespace token of some category,
lower-cased, is in the keyword set. -/
def check_if_artist (categories : List String) : Bool :=
  categories.any (fun category =>
    (splitWhitespace category).any (fun word => keywords.contains (pyLower word)))

/-- A successful Wikipedia page result: title, categories, summary. -/
structure BiographyCandidate where
  title : String
  categories : List String
  summary : String
deriving DecidableEq, Repr

/-- The failure subtypes of the lookup provider, all raised as
`wikipedia.WikipediaException` and caught at artists.py line 83. -/
inductive LookupFailure where
  | notFound
  | ambiguous
  | transportError
deriving DecidableEq, Repr

/-- Outcome of `wikipedia.page(wiki_name)` (artists.py line 77). -/
inductive LookupResult where
  | success : BiographyCandidate → LookupResult
  | failure : LookupFailure → LookupResult
deriving DecidableEq, Repr

/-- The sentinel string (artists.py lines 82 and 84). -/
def sentinel : String := "No Wikipedia Entry Available for this artist"

/-- The summary-resolution logic of `write_data` (artists.py lines
76-84): on lookup failure return the sentinel; on success return the
page summary when the title matches the search key case-insensitively or
`check_if_artist` accepts the page's categories, else the sentinel. -/
def resolve (lookup : String → LookupResult) (wiki_name : String) : String :=
  match lookup wiki_name with
  | LookupResult.failure _ => sentinel
  | LookupResult.success page =>
      if pyLower page.title = pyLower wiki_name ∨ check_if_artist page.categories = true then
        page.summary
      else
        sentinel

/-- One scraped (display name, href) pair, from the listing provider. -/
structure RawNameEntry where
  display_name : String
  link : String
deriving DecidableEq, Repr

/-- One loop body of `write_data` (artists.py lines 60-86): derive the
wiki name and build the row `[name, prefixed link, summary]`; `none`
models the uncaught `IndexError` for a zero-token display name. -/
def processEntry (lookup : String → LookupResult) (e : RawNameEntry) :
    Option (List String) :=
  match derive e.display_name with
  | Except.error _ => none
  | Except.ok wiki_name =>
      some [e.display_name, "https://web.archive.org" ++ e.link,
            resolve lookup wiki_name]

/-- `write_data` (artists.py lines 52-86): rows written in input order;
the second component records the uncaught exception, which aborts the
loop (rows already written stay written, later entries produce none). -/
def write_data (lookup : String → LookupResult) :
    List RawNameEntry → List (List String) × Option String
  | [] => ([], none)
  | e :: rest =>
      match processEntry lookup e with
      | none => ([], some "IndexError")
      | some row =>
          let out := write_data lookup rest
          (row :: out.1, out.2)

/-- The per-letter loop of `main` (artists.py lines 118-122): each page's
entries go through `write_data`; an uncaught exception aborts the run. -/
def write_pages (lookup : String → LookupResult) :
    List (List RawNameEntry) → List (List String) × Option String
  | [] => ([], none)
  | page :: rest =>
      let out := write_data lookup page
      match out.2 with
      | some err => (out.1, some err)
      | none =>
          let outRest := write_pages lookup rest
          (out.1 ++ outRest.1, outRest.2)

/-- The rows `main` (artists.py lines 112-122) hands to the csv writer:
the header row first, then the data rows of every page in order. -/
def main_rows (lookup : String → LookupResult)
    (pages : List (List RawNameEntry)) : List (List String) × Option String :=
  let out := write_pages lookup pages
  (["Name", "Link", "Wiki Summary"] :: out.1, out.2)

/-- A lookup provider that fails with not-found on every key. -/
def constNotFound : String → LookupResult :=
  fun _ => LookupResult.failure LookupFailure.notFound

/-- The Picasso candidate of the spec's end-to-end test. -/
def picassoCand : BiographyCandidate :=
  { title := "Pablo Picasso", categories := ["Spanish painters"],
    summary := "Pablo Picasso was..." }

/-- A lookup provider that returns the Picasso candidate on every key. -/
def picassoLookup : String → LookupResult :=
  fun _ => LookupResult.success picassoCand

example : splitWhitespace "Picasso, Pablo" = ["Picasso,", "Pablo"] := rfl

example : derive "Picasso, Pablo" = Except.ok "Pablo Picasso" := rfl

example : derive "Gogh, Vincent van" = Except.ok "Vincent Gogh" := rfl

example : derive "Rembrandt" = Except.ok "Rembrandt" := rfl

example : derive "," = Except.ok "" := rfl

example : derive "" = Except.error "IndexError" := rfl

example : check_if_artist ["Spanish painters"] = false := rfl

example : check_if_artist ["Dutch painter bios"] = true := rfl

example : resolve picassoLookup "Pablo Picasso" = "Pablo Picasso was..." := rfl

example : resolve constNotFound "Pablo Picasso" = sentinel := rfl

/-- The end-to-end entry of the spec's Picasso test. -/
def picassoEntry : RawNameEntry := { display_name := "Picasso, Pablo", link := "/a" }

/-- An entry whose display name has zero whitespace tokens. -/
def emptyEntry : RawNameEntry := { display_name := "", link := "/x" }

/-- Membership in the concrete keyword list, spelt out as a disjunction. -/
lemma keywords_contains (x : String) :
    keywords.contains x = true ↔
      (x = "art" ∨ x = "artist" ∨ x = "sculptor" ∨ x = "painter") := by
  simp [keywords]

/-- A display name with at least one whitespace token derives successfully,
so its `write_data` loop body produces a row. -/
lemma processEntry_isSome (lookup : String → LookupResult) (e : RawNameEntry)
    (h : splitWhitespace e.display_name ≠ []) :
    (processEntry lookup e).isSome := by
  rcases hs : splitWhitespace e.display_name with _ | ⟨t0, _ | ⟨t1, rest⟩⟩
  · exact absurd hs h
  · simp [processEntry, derive, hs]
  · simp [processEntry, derive, hs]

/-- Every row emitted by `write_data` is the processed image of some input
entry. -/
lemma mem_write_data_rows (lookup : String → LookupResult)
    (entries : List RawNameEntry) (row : List String) :
    row ∈ (write_data lookup entries).1 →
      ∃ e ∈ entries, processEntry lookup e = some row := by
  induction entries with
  | nil => intro hrow; simp [write_data] at hrow
  | cons e rest ih =>
      intro hrow
      cases hp : processEntry lookup e with
      | none => simp [write_data, hp] at hrow
      | some r =>
          simp only [write_data, hp] at hrow
          rcases List.mem_cons.mp hrow with h1 | h2
          · exact ⟨e, List.mem_cons_self e rest, by rw [hp, h1]⟩
          · obtain ⟨e', he', hpe⟩ := ih h2
            exact ⟨e', List.mem_cons_of_mem e he', hpe⟩

/-- Every row emitted by the per-letter loop is the processed image of
some entry of some page. -/
lemma mem_write_pages_rows (lookup : String → LookupResult)
    (pages : List (List RawNameEntry)) (row : List String) :
    row ∈ (write_pages lookup pages).1 →
      ∃ page ∈ pages, ∃ e ∈ page, processEntry lookup e = some row := by
  induction pages with
  | nil => intro hrow; simp [write_pages] at hrow
  | cons page rest ih =>
      intro hrow
      cases h2 : (write_data lookup page).2 with
      | some err =>
          simp only [write_pages, h2] at hrow
          obtain ⟨e, he, hpe⟩ := mem_write_data_rows lookup page row hrow
          exact ⟨page, List.mem_cons_self page rest, e, he, hpe⟩
      | none =>
          simp only [write_pages, h2] at hrow
          rcases List.mem_append.mp hrow with hl | hr
          · obtain ⟨e, he, hpe⟩ := mem_write_data_rows lookup page row hl
            exact ⟨page, List.mem_cons_self page rest, e, he, hpe⟩
          · obtain ⟨page', hp', e, he, hpe⟩ := ih hr
            exact ⟨page', List.mem_cons_of_mem page hp', e, he, hpe⟩

/-- C1: for every successful lookup yielding a candidate, `resolve`
returns the candidate's summary exactly when the candidate's title equals
the search key case-insensitively or `check_if_artist` accepts the
candidate's categories, and returns the sentinel when neither holds. -/
theorem resolve_success_cases (lookup : String → LookupResult) (key : String)
    (cand : BiographyCandidate) (h : lookup key = LookupResult.success cand) :
    resolve lookup key =
      if pyLower cand.title = pyLower key ∨ check_if_artist cand.categories = true
      then cand.summary else sentinel := by
  simp only [resolve, h]

/-- Witness for C1 at the spec's Picasso input: the title matches the key
case-insensitively, so the summary is returned. -/
theorem resolve_success_cases_witness :
    resolve picassoLookup "Pablo Picasso" =
      if pyLower picassoCand.title = pyLower "Pablo Picasso" ∨
          check_if_artist picassoCand.categories = true
      then picassoCand.summary else sentinel :=
  resolve_success_cases picassoLookup "Pablo Picasso" picassoCand rfl

/-- C2: on every lookup failure — not-found, ambiguous or transport —
`resolve` returns the exact sentinel string; being a total function into
`String`, it propagates no error. -/
theorem resolve_failure_sentinel (lookup : String → LookupResult) (key : String)
    (f : LookupFailure) (h : lookup key = LookupResult.failure f) :
    resolve lookup key = "No Wikipedia Entry Available for this artist" := by
  simp only [resolve, h, sentinel]

/-- Witness for C2 at a not-found lookup. -/
theorem resolve_failure_sentinel_witness :
    resolve constNotFound "Smith John" =
      "No Wikipedia Entry Available for this artist" :=
  resolve_failure_sentinel constNotFound "Smith John" LookupFailure.notFound rfl

/-- C3: a display name with at least two whitespace tokens derives to
`token[1] ++ " " ++ strip(token[0])`, i.e. "<first> <last>" with the
punctuation stripped from token[0]. -/
theorem derive_multi_token (s t0 t1 : String) (rest : List String)
    (h : splitWhitespace s = t0 :: t1 :: rest) :
    derive s = Except.ok (t1 ++ " " ++ stripPunct t0) := by
  simp only [derive, h]

/-- Witness for C3: "Picasso, Pablo" splits into two tokens and derives
to "Pablo Picasso". -/
theorem derive_multi_token_witness :
    splitWhitespace "Picasso, Pablo" = ["Picasso,", "Pablo"] ∧
    derive "Picasso, Pablo" = Except.ok "Pablo Picasso" :=
  ⟨rfl, derive_multi_token "Picasso, Pablo" "Picasso," "Pablo" [] rfl⟩

/-- C4: a display name with exactly one whitespace token derives to that
token with leading/trailing punctuation stripped. -/
theorem derive_single_token (s t0 : String)
    (h : splitWhitespace s = [t0]) :
    derive s = Except.ok (stripPunct t0) := by
  simp only [derive, h]

/-- Witness for C4 at the single token "Rembrandt." (trailing period
stripped, rest unchanged). -/
theorem derive_single_token_witness :
    splitWhitespace "Rembrandt." = ["Rembrandt."] ∧
    derive "Rembrandt." = Except.ok "Rembrandt" :=
  ⟨rfl, derive_single_token "Rembrandt." "Rembrandt." rfl⟩

/-- C5: evaluation at the failing input. An all-punctuation single-token
display name derives to the empty-string key, silently and with no error
signalled; only the zero-token (empty) input raises the uncaught
IndexError. -/
theorem derive_degenerate_inputs :
    derive "," = Except.ok "" ∧ derive "" = Except.error "IndexError" :=
  ⟨rfl, rfl⟩

/-- C6: `check_if_artist` is true iff some whitespace token of some
category string, lower-cased, equals one of art, artist, sculptor,
painter; and it is false on the empty category sequence. -/
theorem check_if_artist_iff (cats : List String) :
    (check_if_artist cats = true ↔
      ∃ c ∈ cats, ∃ w ∈ splitWhitespace c,
        (pyLower w = "art" ∨ pyLower w = "artist" ∨
         pyLower w = "sculptor" ∨ pyLower w = "painter")) ∧
    check_if_artist [] = false := by
  refine ⟨?_, rfl⟩
  simp only [check_if_artist, List.any_eq_true, keywords_contains]

/-- C7 counterexample: an entry whose display name has zero tokens makes
the loop abort, so one input entry yields zero output rows. -/
theorem write_data_drops_degenerate_entry :
    ¬ ((write_data constNotFound [emptyEntry]).1.length =
        ([emptyEntry] : List RawNameEntry).length) := by
  decide

/-- C7 amended: when every display name has at least one whitespace
token, `write_data` aborts nowhere and writes exactly one row per entry,
the i-th row being the processed image of the i-th entry (order
preserved, nothing dropped or duplicated). -/
theorem write_data_one_row_per_entry (lookup : String → LookupResult)
    (entries : List RawNameEntry)
    (h : ∀ e ∈ entries, splitWhitespace e.display_name ≠ []) :
    (write_data lookup entries).2 = none ∧
    (write_data lookup entries).1 =
      entries.map (fun e => (processEntry lookup e).getD []) := by
  induction entries with
  | nil => exact ⟨rfl, rfl⟩
  | cons e rest ih =>
      have he : (processEntry lookup e).isSome :=
        processEntry_isSome lookup e (h e (List.mem_cons_self e rest))
      obtain ⟨row, hrow⟩ := Option.isSome_iff_exists.mp he
      have ihr := ih (fun x hx => h x (List.mem_cons_of_mem e hx))
      simp [write_data, hrow, ihr.1, ihr.2]

/-- Witness for C7 at a one-entry input with a failing lookup. -/
theorem write_data_one_row_per_entry_witness :
    (write_data constNotFound [picassoEntry]).2 = none ∧
    (write_data constNotFound [picassoEntry]).1 =
      [picassoEntry].map (fun e => (processEntry constNotFound e).getD []) :=
  write_data_one_row_per_entry constNotFound [picassoEntry] (by decide)

/-- C8: the rows handed to the csv writer start with the header
["Name", "Link", "Wiki Summary"], written once before any data row, and
every later row is `[display_name, prefixed link, resolved summary]` for
some scraped entry of some page. -/
theorem main_rows_header_and_shape (lookup : String → LookupResult)
    (pages : List (List RawNameEntry)) :
    (main_rows lookup pages).1.head? = some ["Name", "Link", "Wiki Summary"] ∧
    ∀ row ∈ (main_rows lookup pages).1.tail,
      ∃ page ∈ pages, ∃ e ∈ page, ∃ k,
        derive e.display_name = Except.ok k ∧
        row = [e.display_name, "https://web.archive.org" ++ e.link,
               resolve lookup k] := by
  refine ⟨rfl, ?_⟩
  intro row hrow
  have hmem : row ∈ (write_pages lookup pages).1 := hrow
  obtain ⟨page, hpage, e, he, hpe⟩ := mem_write_pages_rows lookup pages row hmem
  cases hd : derive e.display_name with
  | error err => rw [processEntry, hd] at hpe; exact absurd hpe (by simp)
  | ok k =>
      rw [processEntry, hd] at hpe
      exact ⟨page, hpage, e, he, k, hd, (Option.some_inj.mp hpe).symm⟩

/-- Witness for C8 at one page with the Picasso entry and a failing
lookup: the header is first and the single data row has the required
shape. -/
theorem main_rows_header_and_shape_witness :
    (main_rows constNotFound [[picassoEntry]]).1.head? =
      some ["Name", "Link", "Wiki Summary"] ∧
    (∃ page ∈ [[picassoEntry]], ∃ e ∈ page, ∃ k,
      derive e.display_name = Except.ok k ∧
      ["Picasso, Pablo", "https://web.archive.org/a", sentinel] =
        [e.display_name, "https://web.archive.org" ++ e.link,
         resolve constNotFound k]) :=
  ⟨(main_rows_header_and_shape constNotFound [[picassoEntry]]).1,
   (main_rows_header_and_shape constNotFound [[picassoEntry]]).2
     ["Picasso, Pablo", "https://web.archive.org/a", sentinel]
     (by decide)⟩

/-- C9: with three or more whitespace tokens, the derived key is built
from token[1] and token[0] alone; tokens from index 2 on never appear. -/
theorem derive_ignores_extra_tokens (s t0 t1 t2 : String) (rest : List String)
    (h : splitWhitespace s = t0 :: t1 :: t2 :: rest) :
    derive s = Except.ok (t1 ++ " " ++ stripPunct t0) := by
  simp only [derive, h]

/-- Witness for C9: "Gogh, Vincent van" yields "Vincent Gogh"; the third
token "van" is discarded. -/
theorem derive_ignores_extra_tokens_witness :
    splitWhitespace "Gogh, Vincent van" = ["Gogh,", "Vincent", "van"] ∧
    derive "Gogh, Vincent van" = Except.ok "Vincent Gogh" :=
  ⟨rfl, derive_ignores_extra_tokens "Gogh, Vincent van" "Gogh," "Vincent" "van" [] rfl⟩

/-- C10: classification is by exact token equality, so plural forms of
the keywords do not match. -/
theorem check_if_artist_exact_tokens_only :
    check_if_artist ["Spanish painters"] = false ∧
    check_if_artist ["American artists"] = false :=
  ⟨rfl, rfl⟩
